import Mathlib

/-!
Verification of the document-parsing pipeline (src/parsers).

Shallow embedding of the data model (models.py), the per-family parsers
(excel_parser.py, pdf_parser.py, text_parser.py, word_parser.py), the shared
base-parser helpers (base_parser.py), and the universal dispatcher
(universal_parser.py).  External effects (filesystem metadata, library reads,
character decoding) are modelled by an explicit environment `Env`; a Python
exception raised by a library call appears as an `Except.error` carrying the
exception message, and Python functions that may raise are embedded as
`Except String _`-valued functions.
-/

-- ===== Data model (models.py) =====

/-- DocumentType enumeration from models.py. -/
inductive DocumentType where
  | pdf
  | word
  | excel
  | csv
  | text
  | html
  | unknown
deriving DecidableEq

/-- Metadata values: the source stores heterogeneous scalars in a string-keyed
dict; the claims only need string, integer and string-list values. -/
inductive MetaVal where
  | str (s : String)
  | nat (n : Nat)
  | strList (l : List String)
deriving DecidableEq

/-- Table from models.py: headers, ragged rows, and the two cached counts. -/
structure Table where
  headers : List String := []
  rows : List (List String) := []
  num_rows : Nat := 0
  num_columns : Nat := 0
deriving DecidableEq

/-- Python dict assignment `d[k] = v`: overwrite in place when the key exists
(keeping its original insertion position), otherwise append at the end. -/
def dictSet {α : Type} (d : List (String × α)) (k : String) (v : α) : List (String × α) :=
  if d.any (fun q => q.1 == k) then
    d.map (fun q => if q.1 == k then (q.1, v) else q)
  else d ++ [(k, v)]

/-- Python dict update `d.update(upd)`: assign every pair of `upd` in order. -/
def dictSetMany {α : Type} (d upd : List (String × α)) : List (String × α) :=
  upd.foldl (fun a q => dictSet a q.1 q.2) d

/-- Python dict lookup `d.get(k)`; `dictSet` keeps keys unique, so the first
match is the value. -/
def lookupMeta (m : List (String × MetaVal)) (k : String) : Option MetaVal :=
  (m.find? (fun q => q.1 == k)).map (fun q => q.2)

/-- Loop body of Table.to_dict for one row: `row_dict = {}` then, for each
`i, header` in `enumerate(headers)`, `row_dict[header] = row[i] if i < len(row)
else ""`. -/
def rowDict (headers : List String) (row : List String) : List (String × String) :=
  headers.enum.foldl (fun d q => dictSet d q.2 (row.getD q.1 "")) []

/-- Table.to_dict from models.py: `[]` when headers or rows are empty,
otherwise one keyed dict per row. -/
def Table.to_dict (t : Table) : List (List (String × String)) :=
  if t.headers.isEmpty || t.rows.isEmpty then []
  else t.rows.map (fun row => rowDict t.headers row)

/-- ParsedDocument from models.py. -/
structure ParsedDocument where
  file_path : String
  document_type : DocumentType
  text : String := ""
  tables : List Table := []
  metadata : List (String × MetaVal) := []
  raw_content : Option String := none
deriving DecidableEq

/-- ParserConfig from models.py, with its defaults. -/
structure ParserConfig where
  extract_tables : Bool := true
  extract_images : Bool := false
  ocr_enabled : Bool := false
  max_file_size_mb : Nat := 50
  encoding : String := "utf-8"

deriving instance DecidableEq for Except

-- ===== Path helpers (pathlib semantics used by base_parser.py) =====

/-- Split a character list on a separator character (pathlib component split). -/
def splitOnChar (sep : Char) : List Char → List (List Char)
  | [] => [[]]
  | c :: rest =>
    let r := splitOnChar sep rest
    if c == sep then [] :: r
    else
      match r with
      | [] => [[c]]
      | g :: gs => (c :: g) :: gs

/-- Python `Path(p).name`: the last path component ('' and '.' components are
dropped by pathlib's normalization). -/
def pathName (p : String) : String :=
  let comps := (splitOnChar '/' p.toList).filter (fun c => !(c.isEmpty) && !(c == ['.']))
  match comps.getLast? with
  | some c => String.mk c
  | none => ""

/-- Index of the last '.' in a character list (Python `name.rfind('.')`). -/
def lastDotIdx (cs : List Char) : Option Nat :=
  ((cs.enum.filter (fun q => q.2 == '.')).map (fun q => q.1)).getLast?

/-- BaseParser.get_file_extension: `Path(file_path).suffix.lower().lstrip('.')`.
Python's `suffix` is `name[i:]` for the last dot index `i` when `0 < i <
len(name) - 1`, else the empty string. -/
def get_file_extension (p : String) : String :=
  let name := (pathName p).toList
  let sfx :=
    match lastDotIdx name with
    | some i => if 0 < i && i + 1 < name.length then name.drop i else []
    | none => []
  String.mk ((sfx.map Char.toLower).dropWhile (fun c => c == '.'))

-- ===== External world =====

/-- Result of a Python file-read attempt: the source's text parser catches
`UnicodeDecodeError` specially, so decode errors are distinguished from other
exceptions. -/
inductive ReadErr where
  | unicodeDecode (msg : String)
  | other (msg : String)
deriving DecidableEq

/-- Exception message (Python `str(e)` / `f"{e}"`). -/
def ReadErr.message : ReadErr → String
  | .unicodeDecode m => m
  | .other m => m

/-- Polars DataFrame as the parsers consume it: named columns and rows of
cells already rendered to strings (the `str(cell)` rendering applied by the
parsers is the identity on this model).  Polars guarantees `height` equals the
number of rows yielded by `iter_rows` and `width` the number of columns. -/
structure DataFrame where
  columns : List String
  rows : List (List String)
deriving DecidableEq

/-- Polars `df.height`. -/
def DataFrame.height (df : DataFrame) : Nat := df.rows.length

/-- Polars `df.width`. -/
def DataFrame.width (df : DataFrame) : Nat := df.columns.length

/-- One pdfplumber page: `extract_text()` (None modelled as `none`) and
`extract_tables()` (cells may be None). -/
structure PdfPage where
  text : Option String := none
  tables : List (List (List (Option String))) := []
deriving DecidableEq

/-- Core document properties exposed by pypdf's `reader.metadata`. -/
structure PyPdfInfo where
  title : Option String := none
  author : Option String := none
  subject : Option String := none
deriving DecidableEq

/-- A pypdf PdfReader view: per-page extracted text and optional metadata. -/
structure PyPdfDoc where
  pageTexts : List (Option String)
  docInfo : Option PyPdfInfo := none
deriving DecidableEq

/-- The external world: filesystem metadata, path resolution, and every
library call the parsers make.  Each fallible call returns `Except` with the
raised exception's message in the error case. -/
structure Env where
  resolve : String → String
  pathExists : String → Bool
  isFile : String → Bool
  sizeBytes : String → Nat
  readTextFile : String → String → Except ReadErr String
  readCsv : String → Except String DataFrame
  readTsv : String → Except String DataFrame
  readExcel : String → Except String DataFrame
  openpyxlRows : String → Except String (List (List (Option String)))
  showDf : DataFrame → String
  pdfplumberRead : String → Except String (List PdfPage)
  pypdfRead : String → Except String PyPdfDoc

-- ===== BaseParser (base_parser.py) =====

/-- BaseParser.validate_file: path exists, is a regular file, and
`size_mb > max_file_size_mb` does not hold (1 MB = 1048576 bytes; the float
division in the source compares the same way on exact sizes). -/
def validate_file (env : Env) (cfg : ParserConfig) (p : String) : Bool :=
  env.pathExists p && env.isFile p &&
    decide (env.sizeBytes p ≤ cfg.max_file_size_mb * 1048576)

/-- BaseParser.create_parsed_document. -/
def create_parsed_document (p : String) (dt : DocumentType) (txt : String)
    (tables : List Table) (metadata : List (String × MetaVal)) : ParsedDocument :=
  { file_path := p, document_type := dt, text := txt, tables := tables,
    metadata := metadata }

-- ===== ExcelParser (excel_parser.py) =====

namespace ExcelParser

/-- SUPPORTED_EXTENSIONS set of excel_parser.py. -/
def SUPPORTED_EXTENSIONS : List String := ["xlsx", "xls", "csv", "tsv"]

/-- ExcelParser.can_parse: extension-set membership. -/
def can_parse (p : String) : Bool := SUPPORTED_EXTENSIONS.contains (get_file_extension p)

/-- ExcelParser._dataframe_to_table: headers from column names, rows from
`iter_rows` with every cell rendered via `str` (identity on the model),
counts from `df.height` / `df.width`. -/
def _dataframe_to_table (df : DataFrame) : Table :=
  { headers := df.columns,
    rows := df.rows,
    num_rows := df.height,
    num_columns := df.width }

/-- ExcelParser._create_document_from_dataframe: one table, the DataFrame's
display string as text, and metadata updated with rows/columns/column_names/
shape. -/
def _create_document_from_dataframe (env : Env) (p : String) (df : DataFrame)
    (dt : DocumentType) (metadata : Option (List (String × MetaVal))) : ParsedDocument :=
  let table := _dataframe_to_table df
  let txt := env.showDf df
  let meta := dictSetMany (metadata.getD [])
    [("rows", MetaVal.nat df.height),
     ("columns", MetaVal.nat df.width),
     ("column_names", MetaVal.strList df.columns),
     ("shape", MetaVal.str (toString df.height ++ " x " ++ toString df.width))]
  create_parsed_document p dt txt [table] meta

/-- ExcelParser._parse_as_text: read the file as plain text with the configured
encoding; on any exception return a document whose text is the error message. -/
def _parse_as_text (env : Env) (cfg : ParserConfig) (p : String) (dt : DocumentType) : ParsedDocument :=
  match env.readTextFile p cfg.encoding with
  | .ok txt => create_parsed_document p dt txt [] []
  | .error e => create_parsed_document p dt ("Error reading file: " ++ e.message) [] []

/-- ExcelParser._parse_csv: Polars read, falling back to raw text on any
exception. -/
def _parse_csv (env : Env) (cfg : ParserConfig) (p : String) : ParsedDocument :=
  match env.readCsv p with
  | .ok df => _create_document_from_dataframe env p df DocumentType.csv none
  | .error _ => _parse_as_text env cfg p DocumentType.csv

/-- ExcelParser._parse_tsv: like `_parse_csv` with a tab separator. -/
def _parse_tsv (env : Env) (cfg : ParserConfig) (p : String) : ParsedDocument :=
  match env.readTsv p with
  | .ok df => _create_document_from_dataframe env p df DocumentType.csv none
  | .error _ => _parse_as_text env cfg p DocumentType.csv

/-- The dict comprehension in `_parse_excel_fallback`:
`{header: [row[i] if i < len(row) else "" for row in rows] for i, header in
enumerate(headers)}` with Python dict overwrite semantics for duplicate
headers. -/
def fallbackCols (headers : List String) (rows : List (List String)) : List (String × List String) :=
  headers.enum.foldl (fun d q => dictSet d q.2 (rows.map (fun r => r.getD q.1 ""))) []

/-- `pl.DataFrame(colsDict)`: column names in dict order; `iter_rows` yields
the transpose (all columns have the same length here, namely the number of
data rows). -/
def dfRowsOfCols (cols : List (String × List String)) : List (List String) :=
  match cols with
  | [] => []
  | c :: _ => (List.range c.2.length).map (fun j => cols.map (fun col => col.2.getD j ""))

/-- ExcelParser._parse_excel_fallback: openpyxl walk; every raised exception is
absorbed into an error-as-text document. -/
def _parse_excel_fallback (env : Env) (p : String) : ParsedDocument :=
  match env.openpyxlRows p with
  | .error e =>
    create_parsed_document p DocumentType.excel ("Error parsing Excel file: " ++ e) [] []
  | .ok raw =>
    let data := raw.map (fun r => r.map (fun c => c.getD ""))
    match data with
    | [] => create_parsed_document p DocumentType.excel ("Empty spreadsheet") [] []
    | headers :: rows =>
      let cols := fallbackCols headers rows
      let df : DataFrame := { columns := cols.map (fun c => c.1), rows := dfRowsOfCols cols }
      _create_document_from_dataframe env p df DocumentType.excel none

/-- ExcelParser._parse_excel: Polars read of the first sheet with hardcoded
sheet metadata; any exception routes to the openpyxl fallback. -/
def _parse_excel (env : Env) (p : String) : ParsedDocument :=
  match env.readExcel p with
  | .ok df =>
    _create_document_from_dataframe env p df DocumentType.excel
      (some [("sheet_name", MetaVal.str ("Sheet1")), ("format", MetaVal.str ("excel"))])
  | .error _ => _parse_excel_fallback env p

/-- ExcelParser.parse: validate, then dispatch by extension; every non-csv,
non-tsv extension goes through the Excel branch. -/
def parse (env : Env) (cfg : ParserConfig) (p : String) : Except String ParsedDocument :=
  if validate_file env cfg p = false then .error ("Invalid file: " ++ p)
  else
    let ext := get_file_extension p
    if ext == "csv" then .ok (_parse_csv env cfg p)
    else if ext == "tsv" then .ok (_parse_tsv env cfg p)
    else .ok (_parse_excel env p)

end ExcelParser

-- ===== PDFParser (pdf_parser.py) =====

namespace PDFParser

/-- SUPPORTED_EXTENSIONS of pdf_parser.py. -/
def SUPPORTED_EXTENSIONS : List String := ["pdf"]

/-- PDFParser.can_parse. -/
def can_parse (p : String) : Bool := get_file_extension p == "pdf"

/-- Python truthiness of an optional string: None and the empty string are
falsy (`if text:`). -/
def truthyStr : Option String → Bool
  | none => false
  | some s => !(s == "")

/-- PDFParser._convert_table: first row as headers, remaining rows as data;
`str(cell) if cell else ""` renders None and "" to "" and keeps other strings. -/
def _convert_table (table_data : List (List (Option String))) : Table :=
  match table_data with
  | [] => {}
  | first :: rest =>
    let headers := first.map (fun c => c.getD "")
    let rows := rest.map (fun r => r.map (fun c => c.getD ""))
    { headers := headers, rows := rows, num_rows := rows.length,
      num_columns := headers.length }

/-- The page-boundary marker appended before each nonempty page's text. -/
def pageMarker (n : Nat) : String := "\n--- Page " ++ toString n ++ " ---\n"

/-- The `all_text` list built by both PDF methods: pages enumerated from `n`,
each truthy page contributing its marker followed by its text. -/
def textChunks : Nat → List (Option String) → List String
  | _, [] => []
  | n, t :: rest =>
    (if truthyStr t then [pageMarker n, t.getD ""] else []) ++ textChunks (n + 1) rest

/-- The `all_tables` list built by `_parse_with_pdfplumber`: gated on
`config.extract_tables`; per page, each nonempty raw table is converted
(the source's redundant `if tables:` guard does not change the result). -/
def pageTables (cfg : ParserConfig) (pages : List PdfPage) : List Table :=
  if cfg.extract_tables then
    pages.flatMap (fun pg => (pg.tables.filter (fun td => !td.isEmpty)).map _convert_table)
  else []

/-- PDFParser._parse_with_pdfplumber. -/
def _parse_with_pdfplumber (env : Env) (cfg : ParserConfig) (p : String) : Except String ParsedDocument :=
  match env.pdfplumberRead p with
  | .error e => .error e
  | .ok pages =>
    .ok (create_parsed_document p DocumentType.pdf
      (String.intercalate "\n" (textChunks 1 (pages.map (fun pg => pg.text))))
      (pageTables cfg pages)
      [("pages", MetaVal.nat pages.length)])

/-- PDFParser._parse_with_pypdf: text-only fallback with pypdf metadata. -/
def _parse_with_pypdf (env : Env) (p : String) : Except String ParsedDocument :=
  match env.pypdfRead p with
  | .error e => .error e
  | .ok d =>
    let meta0 : List (String × MetaVal) :=
      [("pages", MetaVal.nat d.pageTexts.length), ("method", MetaVal.str ("pypdf"))]
    let meta :=
      match d.docInfo with
      | none => meta0
      | some info =>
        dictSetMany meta0
          [("title", MetaVal.str (info.title.getD "")),
           ("author", MetaVal.str (info.author.getD "")),
           ("subject", MetaVal.str (info.subject.getD ""))]
    .ok (create_parsed_document p DocumentType.pdf
      (String.intercalate "\n" (textChunks 1 d.pageTexts)) [] meta)

/-- PDFParser.parse: validate, try pdfplumber, then pypdf; if both raise, the
second failure propagates to the caller. -/
def parse (env : Env) (cfg : ParserConfig) (p : String) : Except String ParsedDocument :=
  if validate_file env cfg p = false then .error ("Invalid file: " ++ p)
  else
    match _parse_with_pdfplumber env cfg p with
    | .ok d => .ok d
    | .error _ =>
      match _parse_with_pypdf env p with
      | .ok d => .ok d
      | .error e2 => .error e2

end PDFParser

-- ===== TextParser (text_parser.py) =====

namespace TextParser

/-- SUPPORTED_EXTENSIONS of text_parser.py. -/
def SUPPORTED_EXTENSIONS : List String := ["txt", "text", "md", "markdown", "log"]

/-- TextParser.can_parse. -/
def can_parse (p : String) : Bool := SUPPORTED_EXTENSIONS.contains (get_file_extension p)

/-- Python str.splitlines line boundaries: LF, CR, VT, FF, FS, GS, RS, NEL,
LINE SEPARATOR, PARAGRAPH SEPARATOR (CRLF is handled as one boundary below). -/
def isLineBoundary (c : Char) : Bool :=
  ([10, 13, 11, 12, 28, 29, 30, 133, 8232, 8233] : List Nat).contains c.toNat

/-- Core of `len(text.splitlines())`: count lines, treating CRLF as a single
boundary; the flag records whether a line is currently open. -/
def slcCore : List Char → Bool → Nat
  | [], inLine => if inLine then 1 else 0
  | '\r' :: '\n' :: rest, _ => 1 + slcCore rest false
  | c :: rest, _ =>
    if isLineBoundary c then 1 + slcCore rest false else slcCore rest true

/-- Python `len(text.splitlines())`. -/
def pySplitlinesCount (s : String) : Nat := slcCore s.toList false

/-- The document built by TextParser.parse after a successful decode: text plus
encoding / line-count / character-count metadata. -/
def textDoc (p enc txt : String) : ParsedDocument :=
  create_parsed_document p DocumentType.text txt []
    [("encoding", MetaVal.str enc),
     ("lines", MetaVal.nat (pySplitlinesCount txt)),
     ("characters", MetaVal.nat txt.length)]

/-- The fallback encoding list tried after a UnicodeDecodeError. -/
def FALLBACK_ENCODINGS : List String := ["latin-1", "cp1252", "iso-8859-1"]

/-- The retry loop of TextParser.parse: any exception on a fallback encoding is
swallowed and the next encoding is tried; when the list is exhausted the call
fails with a decode error naming the path. -/
def tryFallbacks (env : Env) (p : String) : List String → Except String ParsedDocument
  | [] => .error ("Could not decode text file: " ++ p)
  | enc :: rest =>
    match env.readTextFile p enc with
    | .ok txt => .ok (textDoc p enc txt)
    | .error _ => tryFallbacks env p rest

/-- TextParser.parse: validate, decode with the configured encoding; only a
UnicodeDecodeError triggers the fallback loop — any other exception from the
first read propagates. -/
def parse (env : Env) (cfg : ParserConfig) (p : String) : Except String ParsedDocument :=
  if validate_file env cfg p = false then .error ("Invalid file: " ++ p)
  else
    match env.readTextFile p cfg.encoding with
    | .ok txt => .ok (textDoc p cfg.encoding txt)
    | .error (.other e) => .error e
    | .error (.unicodeDecode _) => tryFallbacks env p FALLBACK_ENCODINGS

end TextParser

-- ===== WordParser (word_parser.py) =====

namespace WordParser

/-- Characters removed by Python str.strip() with no argument (ASCII subset;
cell text in the claims is ASCII). -/
def pyStripChars : List Char := [' ', '\t', '\n', '\r', Char.ofNat 11, Char.ofNat 12]

/-- Python `s.strip()`. -/
def pyStrip (s : String) : String :=
  String.mk
    (((s.toList.dropWhile (fun c => pyStripChars.contains c)).reverse.dropWhile
        (fun c => pyStripChars.contains c)).reverse)

/-- WordParser._parse_word_table: collect the stripped cell texts row by row;
first row as headers, remaining rows as data, counts cached at construction. -/
def _parse_word_table (word_table : List (List String)) : Table :=
  let rows_data := word_table.map (fun r => r.map pyStrip)
  match rows_data with
  | [] => {}
  | headers :: rows =>
    { headers := headers, rows := rows, num_rows := rows.length,
      num_columns := headers.length }

end WordParser

-- ===== UniversalParser (universal_parser.py) =====

namespace UniversalParser

/-- The two parsers the dispatcher registers, in registration order
(PDF first, then Excel). -/
inductive ParserKind where
  | pdfP
  | excelP
deriving DecidableEq

/-- `self.parsers = [PDFParser(config), ExcelParser(config)]`. -/
def registeredParsers : List ParserKind := [ParserKind.pdfP, ParserKind.excelP]

/-- can_parse of a registered parser. -/
def canParseK : ParserKind → String → Bool
  | .pdfP, p => PDFParser.can_parse p
  | .excelP, p => ExcelParser.can_parse p

/-- parse of a registered parser. -/
def parseK (env : Env) (cfg : ParserConfig) : ParserKind → String → Except String ParsedDocument
  | .pdfP, p => PDFParser.parse env cfg p
  | .excelP, p => ExcelParser.parse env cfg p

/-- The hardcoded unsupported-format error of UniversalParser.parse. -/
def unsupportedMsg (fp : String) : String :=
  "No parser available for file type: " ++ get_file_extension fp ++
    "\nSupported formats: PDF (.pdf), Excel (.xlsx, .xls), CSV (.csv)"

/-- The dispatch loop of UniversalParser.parse: first matching parser is
attempted; an exception from its parse moves on to the next parser; when the
list is exhausted the unsupported-format error is raised. -/
def tryParsers (env : Env) (cfg : ParserConfig) (fp : String) : List ParserKind → Except String ParsedDocument
  | [] => .error (unsupportedMsg fp)
  | k :: rest =>
    if canParseK k fp then
      match parseK env cfg k fp with
      | .ok d => .ok d
      | .error _ => tryParsers env cfg fp rest
    else tryParsers env cfg fp rest

/-- UniversalParser.parse: resolve the path, fail if it does not exist, then
run the dispatch loop on the resolved path. -/
def parse (env : Env) (cfg : ParserConfig) (file_path : String) : Except String ParsedDocument :=
  let fp := env.resolve file_path
  if env.pathExists fp = false then .error ("File not found: " ++ fp)
  else tryParsers env cfg fp registeredParsers

/-- The extension-to-type lookup table of UniversalParser.detect_format. -/
def format_map : List (String × DocumentType) :=
  [("pdf", DocumentType.pdf), ("docx", DocumentType.word), ("doc", DocumentType.word),
   ("xlsx", DocumentType.excel), ("xls", DocumentType.excel), ("csv", DocumentType.csv),
   ("tsv", DocumentType.csv), ("txt", DocumentType.text), ("text", DocumentType.text),
   ("md", DocumentType.text), ("markdown", DocumentType.text)]

/-- UniversalParser.detect_format: pure extension lookup, UNKNOWN as default. -/
def detect_format (p : String) : DocumentType :=
  (format_map.lookup (get_file_extension p)).getD DocumentType.unknown

/-- Lexicographic comparison on character lists (the order Python sorts
extension strings by). -/
def lexLt : List Char → List Char → Bool
  | [], [] => false
  | [], _ :: _ => true
  | _ :: _, [] => false
  | a :: as, b :: bs =>
    if a.toNat < b.toNat then true
    else if b.toNat < a.toNat then false
    else lexLt as bs

/-- Insert into a sorted, duplicate-free list of strings. -/
def insertSortedStr (s : String) : List String → List String
  | [] => [s]
  | x :: xs =>
    if s == x then x :: xs
    else if lexLt s.toList x.toList then s :: x :: xs
    else x :: insertSortedStr s xs

/-- Python `sorted(set(l))`. -/
def sortedSet (l : List String) : List String := l.foldr insertSortedStr []

/-- UniversalParser.get_supported_formats: sorted union of every registered
parser's declared extension set. -/
def get_supported_formats : List String :=
  sortedSet (PDFParser.SUPPORTED_EXTENSIONS ++ ExcelParser.SUPPORTED_EXTENSIONS)

/-- The sentinel document parse_multiple records for a failed path. -/
def errorDoc (p e : String) : ParsedDocument :=
  { file_path := p, document_type := DocumentType.unknown,
    text := "Error: " ++ e, metadata := [("error", MetaVal.str e)] }

/-- UniversalParser.parse_multiple: one output per input in order; a failing
path contributes the sentinel error document instead of aborting. -/
def parse_multiple (env : Env) (cfg : ParserConfig) : List String → List ParsedDocument
  | [] => []
  | p :: rest =>
    (match parse env cfg p with
     | .ok d => d
     | .error e => errorDoc p e) :: parse_multiple env cfg rest

end UniversalParser

-- ===== Substring helper (for reasoning about error messages) =====

/-- Test whether the first list is an initial segment of the second. -/
def isPre : List Char → List Char → Bool
  | [], _ => true
  | _ :: _, [] => false
  | a :: as, b :: bs => a == b && isPre as bs

/-- Auxiliary substring scan. -/
def containsAux : List Char → List Char → Bool
  | _, [] => true
  | [], _ :: _ => false
  | c :: cs, pc :: pcs => isPre (pc :: pcs) (c :: cs) || containsAux cs (pc :: pcs)

/-- Whether `sub` occurs as a contiguous substring of `s`. -/
def strContains (s sub : String) : Bool := containsAux s.toList sub.toList

-- ===== Concrete environments and configuration used by the witnesses =====

/-- Default parser configuration (ParserConfig()). -/
def cfgD : ParserConfig := {}

/-- A small concrete DataFrame. -/
def dfW : DataFrame := { columns := ["a", "b"], rows := [["1", "2"], ["3", "4"]] }

/-- Two concrete pdfplumber pages with text and no tables. -/
def pagesW : List PdfPage := [{ text := some ("alpha") }, { text := some ("beta") }]

/-- A world where every file except `missing.csv` exists and every library
call succeeds. -/
def envOk : Env :=
  { resolve := fun p => p,
    pathExists := fun p => !(p == "missing.csv"),
    isFile := fun _ => true,
    sizeBytes := fun _ => 1000,
    readTextFile := fun _ _ => .ok ("hello" ++ "\n" ++ "world"),
    readCsv := fun _ => .ok dfW,
    readTsv := fun _ => .ok dfW,
    readExcel := fun _ => .ok dfW,
    openpyxlRows := fun _ => .ok [[some ("h")], [some ("v")]],
    showDf := fun df => toString df.height ++ " x " ++ toString df.width,
    pdfplumberRead := fun _ => .ok pagesW,
    pypdfRead := fun _ => .ok { pageTexts := [some ("alpha")] } }

/-- A world where every file exists but every library call raises. -/
def envFail : Env :=
  { resolve := fun p => p,
    pathExists := fun _ => true,
    isFile := fun _ => true,
    sizeBytes := fun _ => 0,
    readTextFile := fun _ _ => .error (ReadErr.unicodeDecode ("bad byte")),
    readCsv := fun _ => .error ("csv boom"),
    readTsv := fun _ => .error ("tsv boom"),
    readExcel := fun _ => .error ("excel boom"),
    openpyxlRows := fun _ => .error ("openpyxl boom"),
    showDf := fun _ => "",
    pdfplumberRead := fun _ => .error ("plumber boom"),
    pypdfRead := fun _ => .error ("pypdf boom") }

/-- A world where no path exists. -/
def envGone : Env :=
  { envFail with pathExists := fun _ => false }

/-- A world where only the cp1252 decoding of a file succeeds. -/
def envEnc : Env :=
  { envFail with
    readTextFile := fun _ enc =>
      if enc == "cp1252" then .ok ("line1" ++ "\n" ++ "line2")
      else .error (ReadErr.unicodeDecode ("boom")) }

-- ===== Helper lemmas =====

/-- Setting a key that is not present appends it. -/
theorem dictSet_not_mem {α : Type} (d : List (String × α)) (k : String) (v : α)
    (h : d.any (fun q => q.1 == k) = false) : dictSet d k v = d ++ [(k, v)] := by
  simp [dictSet, h]

/-- The to_dict row loop over headers with distinct names, started from any
accumulator whose keys avoid the remaining headers, appends one pair per
header. -/
theorem rowDict_go (row : List String) (hs : List String) : ∀ (n : Nat)
    (acc : List (String × String)), hs.Nodup → (∀ q ∈ acc, q.1 ∉ hs) →
    (List.enumFrom n hs).foldl (fun d q => dictSet d q.2 (row.getD q.1 "")) acc
      = acc ++ (List.enumFrom n hs).map (fun q => (q.2, row.getD q.1 "")) := by
  induction hs with
  | nil => intro n acc _ _; simp
  | cons h t ih =>
    intro n acc hnd hdisj
    have hnotacc : acc.any (fun q => q.1 == h) = false := by
      rw [List.any_eq_false]
      intro q hq
      simpa using fun hqh => hdisj q hq (by simp [hqh])
    have hnd' := (List.nodup_cons.mp hnd).2
    have hht : h ∉ t := (List.nodup_cons.mp hnd).1
    simp only [List.enumFrom, List.foldl_cons, List.map_cons]
    rw [dictSet_not_mem _ _ _ hnotacc]
    rw [ih (n + 1) (acc ++ [(h, row.getD n "")]) hnd' ?_]
    · simp
    · intro q hq
      rcases List.mem_append.mp hq with hq | hq
      · exact fun hm => hdisj q hq (List.mem_cons_of_mem _ hm)
      · simp at hq
        subst hq
        simpa using hht

/-- The page-text chunk list equals the marker/text pairs of the truthy pages
in enumeration order. -/
theorem textChunks_enumFrom (ts : List (Option String)) : ∀ n : Nat,
    PDFParser.textChunks n ts
      = ((List.enumFrom n ts).filter (fun q => PDFParser.truthyStr q.2)).flatMap
          (fun q => [PDFParser.pageMarker q.1, q.2.getD ""]) := by
  induction ts with
  | nil => intro n; rfl
  | cons t rest ih =>
    intro n
    simp only [PDFParser.textChunks, List.enumFrom, List.filter_cons, ih (n + 1)]
    cases h : PDFParser.truthyStr t <;> simp [h]

/-- When every page has no raw tables, the extracted table list is empty. -/
theorem pageTables_nil (cfg : ParserConfig) (pages : List PdfPage)
    (h : ∀ pg ∈ pages, pg.tables = []) : PDFParser.pageTables cfg pages = [] := by
  unfold PDFParser.pageTables
  cases hc : cfg.extract_tables
  · simp
  · rw [if_pos rfl, List.flatMap_eq_nil_iff]
    intro pg hpg
    rw [h pg hpg]
    rfl

-- ===== Claim theorems =====

/-- Claim C10: Table.to_dict returns the empty list whenever the headers list
or the rows list is empty; in particular nonempty rows with no headers yield
no keyed rows at all. -/
theorem table_to_dict_empty_guard (t : Table) (h : t.headers = [] ∨ t.rows = []) :
    t.to_dict = [] := by
  unfold Table.to_dict
  rcases h with h | h <;> simp [h]

/-- Witness for C10 at a table with nonempty rows and no headers. -/
theorem table_to_dict_empty_guard_witness :
    (Table.mk [] [["x"], ["y"]] 2 0).headers = [] ∧
    (Table.mk [] [["x"], ["y"]] 2 0).rows ≠ [] ∧
    (Table.mk [] [["x"], ["y"]] 2 0).to_dict = [] :=
  ⟨rfl, by decide, table_to_dict_empty_guard (Table.mk [] [["x"], ["y"]] 2 0) (Or.inl rfl)⟩

/-- Claim C7: every Table built by the three construction sites — Excel's
DataFrame conversion, PDF's raw-table conversion, Word's table walk —
satisfies num_rows = len(rows) and num_columns = len(headers). -/
theorem table_counts_at_construction :
    (∀ df : DataFrame,
       (ExcelParser._dataframe_to_table df).num_rows
           = (ExcelParser._dataframe_to_table df).rows.length ∧
       (ExcelParser._dataframe_to_table df).num_columns
           = (ExcelParser._dataframe_to_table df).headers.length) ∧
    (∀ td : List (List (Option String)),
       (PDFParser._convert_table td).num_rows = (PDFParser._convert_table td).rows.length ∧
       (PDFParser._convert_table td).num_columns
           = (PDFParser._convert_table td).headers.length) ∧
    (∀ wt : List (List String),
       (WordParser._parse_word_table wt).num_rows
           = (WordParser._parse_word_table wt).rows.length ∧
       (WordParser._parse_word_table wt).num_columns
           = (WordParser._parse_word_table wt).headers.length) := by
  refine ⟨fun df => ⟨rfl, rfl⟩, fun td => ?_, fun wt => ?_⟩
  · cases td <;> exact ⟨rfl, rfl⟩
  · unfold WordParser._parse_word_table
    cases wt <;> exact ⟨rfl, rfl⟩

/-- Claim C6: for distinct headers, every keyed row maps the headers in order
to the row's cells, padding a short row with empty strings and dropping cells
beyond the header count. -/
theorem table_to_dict_pads_and_truncates (t : Table) (hnd : t.headers.Nodup)
    (hh : t.headers ≠ []) (hr : t.rows ≠ []) :
    t.to_dict
      = t.rows.map (fun row => t.headers.enum.map (fun q => (q.2, row.getD q.1 ""))) := by
  have h1 : t.headers.isEmpty = false := by
    cases hhd : t.headers
    · exact absurd hhd hh
    · rfl
  have h2 : t.rows.isEmpty = false := by
    cases hrw : t.rows
    · exact absurd hrw hr
    · rfl
  have h3 : (t.headers.isEmpty || t.rows.isEmpty) = false := by simp [h1, h2]
  unfold Table.to_dict
  rw [h3, if_neg Bool.false_ne_true]
  apply List.map_congr_left
  intro row _
  unfold rowDict
  have := rowDict_go row t.headers 0 [] hnd (by simp)
  simpa [List.enum] using this

/-- Witness for C6: headers [A,B,C] with a short row [x,y] and a long row
[x,y,z,w]. -/
theorem table_to_dict_pads_and_truncates_witness :
    (["A", "B", "C"] : List String).Nodup ∧
    (Table.mk ["A", "B", "C"] [["x", "y"], ["x", "y", "z", "w"]] 2 3).to_dict
      = [[("A", "x"), ("B", "y"), ("C", "")], [("A", "x"), ("B", "y"), ("C", "z")]] := by
  refine ⟨by decide, ?_⟩
  rw [table_to_dict_pads_and_truncates
      (Table.mk ["A", "B", "C"] [["x", "y"], ["x", "y", "z", "w"]] 2 3)
      (by decide) (by decide) (by decide)]
  decide

/-- Claim C3: dispatcher parse on a path whose resolution does not exist fails
with the not-found error naming the resolved (absolute) path, whatever any
parser would have done on it. -/
theorem universal_parse_missing_path (env : Env) (cfg : ParserConfig) (p : String)
    (h : env.pathExists (env.resolve p) = false) :
    UniversalParser.parse env cfg p = .error ("File not found: " ++ env.resolve p) := by
  simp [UniversalParser.parse, h]

/-- Witness for C3 in a world with no existing paths. -/
theorem universal_parse_missing_path_witness :
    envGone.pathExists (envGone.resolve ("ghost.pdf")) = false ∧
    UniversalParser.parse envGone cfgD ("ghost.pdf")
      = .error ("File not found: " ++ envGone.resolve ("ghost.pdf")) :=
  ⟨by decide, universal_parse_missing_path envGone cfgD ("ghost.pdf") (by decide)⟩

/-- Claim C5: on a valid pdf path, a pdfplumber failure routes to the pypdf
fallback; if the fallback also fails, parse propagates that failure to the
caller instead of returning a degraded document. -/
theorem pdf_parse_two_stage_failure (env : Env) (cfg : ParserConfig) (p : String)
    (hv : validate_file env cfg p = true) :
    (∀ e1 d, PDFParser._parse_with_pdfplumber env cfg p = .error e1 →
       PDFParser._parse_with_pypdf env p = .ok d →
       PDFParser.parse env cfg p = .ok d) ∧
    (∀ e1 e2, PDFParser._parse_with_pdfplumber env cfg p = .error e1 →
       PDFParser._parse_with_pypdf env p = .error e2 →
       PDFParser.parse env cfg p = .error e2) := by
  constructor
  · intro e1 d h1 h2
    simp [PDFParser.parse, hv, h1, h2]
  · intro e1 e2 h1 h2
    simp [PDFParser.parse, hv, h1, h2]

/-- Witness for C5: both PDF methods fail and parse surfaces the second
failure. -/
theorem pdf_parse_two_stage_failure_witness :
    validate_file envFail cfgD ("x.pdf") = true ∧
    PDFParser._parse_with_pdfplumber envFail cfgD ("x.pdf") = .error ("plumber boom") ∧
    PDFParser._parse_with_pypdf envFail ("x.pdf") = .error ("pypdf boom") ∧
    PDFParser.parse envFail cfgD ("x.pdf") = .error ("pypdf boom") :=
  ⟨by decide, by decide, by decide,
   (pdf_parse_two_stage_failure envFail cfgD ("x.pdf") (by decide)).2
     ("plumber boom") ("pypdf boom") (by decide) (by decide)⟩

/-- Claim C4: after a successful validate_file, ExcelParser.parse always
returns a document; when the primary read and the fallback both fail, csv/tsv
degrade to an error-as-text raw document and xlsx/xls degrade through the
openpyxl fallback to an error-as-text document. -/
theorem excel_parse_never_raises (env : Env) (cfg : ParserConfig) (p : String)
    (hv : validate_file env cfg p = true) :
    (∃ d, ExcelParser.parse env cfg p = .ok d) ∧
    (get_file_extension p = "csv" →
       ∀ ce, env.readCsv p = .error ce →
         (∀ t, env.readTextFile p cfg.encoding = .ok t →
            ExcelParser.parse env cfg p
              = .ok (create_parsed_document p DocumentType.csv t [] [])) ∧
         (∀ te, env.readTextFile p cfg.encoding = .error te →
            ExcelParser.parse env cfg p
              = .ok (create_parsed_document p DocumentType.csv
                  ("Error reading file: " ++ te.message) [] []))) ∧
    (get_file_extension p = "tsv" →
       ∀ ce, env.readTsv p = .error ce →
         (∀ t, env.readTextFile p cfg.encoding = .ok t →
            ExcelParser.parse env cfg p
              = .ok (create_parsed_document p DocumentType.csv t [] [])) ∧
         (∀ te, env.readTextFile p cfg.encoding = .error te →
            ExcelParser.parse env cfg p
              = .ok (create_parsed_document p DocumentType.csv
                  ("Error reading file: " ++ te.message) [] []))) ∧
    (get_file_extension p ≠ "csv" → get_file_extension p ≠ "tsv" →
       ∀ e1 e2, env.readExcel p = .error e1 → env.openpyxlRows p = .error e2 →
         ExcelParser.parse env cfg p
           = .ok (create_parsed_document p DocumentType.excel
               ("Error parsing Excel file: " ++ e2) [] [])) := by
  refine ⟨?_, ?_, ?_, ?_⟩
  · unfold ExcelParser.parse
    rw [if_neg (by simp [hv])]
    dsimp only
    split
    · exact ⟨_, rfl⟩
    · split
      · exact ⟨_, rfl⟩
      · exact ⟨_, rfl⟩
  · intro hcsv ce hce
    constructor
    · intro t ht
      simp [ExcelParser.parse, ExcelParser._parse_csv, ExcelParser._parse_as_text,
        hv, hcsv, hce, ht]
    · intro te hte
      simp [ExcelParser.parse, ExcelParser._parse_csv, ExcelParser._parse_as_text,
        hv, hcsv, hce, hte]
  · intro htsv ce hce
    have hb1 : (get_file_extension p == "csv") = false := by
      simp [htsv]
    constructor
    · intro t ht
      simp [ExcelParser.parse, ExcelParser._parse_tsv, ExcelParser._parse_as_text,
        hv, htsv, hb1, hce, ht]
    · intro te hte
      simp [ExcelParser.parse, ExcelParser._parse_tsv, ExcelParser._parse_as_text,
        hv, htsv, hb1, hce, hte]
  · intro h1 h2 e1 e2 he1 he2
    have hb1 : (get_file_extension p == "csv") = false := by
      simpa using h1
    have hb2 : (get_file_extension p == "tsv") = false := by
      simpa using h2
    simp [ExcelParser.parse, ExcelParser._parse_excel, ExcelParser._parse_excel_fallback,
      hv, hb1, hb2, he1, he2]

/-- Witness for C4: a csv whose Polars read and raw-text fallback both fail
still parses to an error-as-text document. -/
theorem excel_parse_never_raises_witness :
    validate_file envFail cfgD ("x.csv") = true ∧
    get_file_extension ("x.csv") = "csv" ∧
    envFail.readCsv ("x.csv") = .error ("csv boom") ∧
    envFail.readTextFile ("x.csv") cfgD.encoding
      = .error (ReadErr.unicodeDecode ("bad byte")) ∧
    ExcelParser.parse envFail cfgD ("x.csv")
      = .ok (create_parsed_document ("x.csv") DocumentType.csv
          ("Error reading file: bad byte") [] []) :=
  ⟨by decide, by decide, by decide, by decide,
   (((excel_parse_never_raises envFail cfgD ("x.csv") (by decide)).2.1
       (by decide) ("csv boom") (by decide)).2
     (ReadErr.unicodeDecode ("bad byte")) (by decide))⟩

/-- Claim C9: TextParser.parse decodes with the configured encoding first,
retries latin-1, cp1252, iso-8859-1 in order on a decode error, returns the
first success with metadata recording the working encoding, the line count and
the character count, and fails with a decode error naming the path when every
encoding fails. -/
theorem text_parse_encoding_chain (env : Env) (cfg : ParserConfig) (p : String)
    (hv : validate_file env cfg p = true) :
    (∀ t, env.readTextFile p cfg.encoding = .ok t →
       TextParser.parse env cfg p = .ok (TextParser.textDoc p cfg.encoding t)) ∧
    (∀ m t, env.readTextFile p cfg.encoding = .error (ReadErr.unicodeDecode m) →
       env.readTextFile p ("latin-1") = .ok t →
       TextParser.parse env cfg p = .ok (TextParser.textDoc p ("latin-1") t)) ∧
    (∀ m e1 t, env.readTextFile p cfg.encoding = .error (ReadErr.unicodeDecode m) →
       env.readTextFile p ("latin-1") = .error e1 →
       env.readTextFile p ("cp1252") = .ok t →
       TextParser.parse env cfg p = .ok (TextParser.textDoc p ("cp1252") t)) ∧
    (∀ m e1 e2 t, env.readTextFile p cfg.encoding = .error (ReadErr.unicodeDecode m) →
       env.readTextFile p ("latin-1") = .error e1 →
       env.readTextFile p ("cp1252") = .error e2 →
       env.readTextFile p ("iso-8859-1") = .ok t →
       TextParser.parse env cfg p = .ok (TextParser.textDoc p ("iso-8859-1") t)) ∧
    (∀ m e1 e2 e3, env.readTextFile p cfg.encoding = .error (ReadErr.unicodeDecode m) →
       env.readTextFile p ("latin-1") = .error e1 →
       env.readTextFile p ("cp1252") = .error e2 →
       env.readTextFile p ("iso-8859-1") = .error e3 →
       TextParser.parse env cfg p = .error ("Could not decode text file: " ++ p)) ∧
    (∀ enc t,
       lookupMeta (TextParser.textDoc p enc t).metadata ("encoding")
           = some (MetaVal.str enc) ∧
       lookupMeta (TextParser.textDoc p enc t).metadata ("lines")
           = some (MetaVal.nat (TextParser.pySplitlinesCount t)) ∧
       lookupMeta (TextParser.textDoc p enc t).metadata ("characters")
           = some (MetaVal.nat t.length)) := by
  refine ⟨?_, ?_, ?_, ?_, ?_, ?_⟩
  · intro t h0
    simp [TextParser.parse, hv, h0]
  · intro m t h0 h1
    simp [TextParser.parse, TextParser.tryFallbacks, TextParser.FALLBACK_ENCODINGS,
      hv, h0, h1]
  · intro m e1 t h0 h1 h2
    simp [TextParser.parse, TextParser.tryFallbacks, TextParser.FALLBACK_ENCODINGS,
      hv, h0, h1, h2]
  · intro m e1 e2 t h0 h1 h2 h3
    simp [TextParser.parse, TextParser.tryFallbacks, TextParser.FALLBACK_ENCODINGS,
      hv, h0, h1, h2, h3]
  · intro m e1 e2 e3 h0 h1 h2 h3
    simp [TextParser.parse, TextParser.tryFallbacks, TextParser.FALLBACK_ENCODINGS,
      hv, h0, h1, h2, h3]
  · intro enc t
    exact ⟨rfl, rfl, rfl⟩

/-- Witness for C9: the configured utf-8 decode and latin-1 both fail with a
decode error, cp1252 succeeds and is recorded. -/
theorem text_parse_encoding_chain_witness :
    validate_file envEnc cfgD ("notes.txt") = true ∧
    envEnc.readTextFile ("notes.txt") cfgD.encoding
      = .error (ReadErr.unicodeDecode ("boom")) ∧
    envEnc.readTextFile ("notes.txt") ("latin-1")
      = .error (ReadErr.unicodeDecode ("boom")) ∧
    envEnc.readTextFile ("notes.txt") ("cp1252") = .ok ("line1" ++ "\n" ++ "line2") ∧
    TextParser.parse envEnc cfgD ("notes.txt")
      = .ok (TextParser.textDoc ("notes.txt") ("cp1252") ("line1" ++ "\n" ++ "line2")) :=
  ⟨by decide, by decide, by decide, by decide,
   (text_parse_encoding_chain envEnc cfgD ("notes.txt") (by decide)).2.2.1
     ("boom") (ReadErr.unicodeDecode ("boom")) ("line1" ++ "\n" ++ "line2")
     (by decide) (by decide) (by decide)⟩

/-- Claim C8: a valid multi-page pdf whose pages contain no tables parses via
pdfplumber to a document with no tables, a pages metadata entry equal to the
total page count, and text assembled from exactly one ascending page marker
per nonempty page, each marker directly preceding that page's text. -/
theorem pdf_multipage_no_tables (env : Env) (cfg : ParserConfig) (p : String)
    (pages : List PdfPage)
    (hv : validate_file env cfg p = true)
    (hp : env.pdfplumberRead p = .ok pages)
    (hm : 2 ≤ pages.length)
    (hnt : ∀ pg ∈ pages, pg.tables = []) :
    PDFParser.parse env cfg p
      = .ok { file_path := p, document_type := DocumentType.pdf,
              text := String.intercalate ("\n")
                (((List.enumFrom 1 (pages.map (fun pg => pg.text))).filter
                    (fun q => PDFParser.truthyStr q.2)).flatMap
                  (fun q => [PDFParser.pageMarker q.1, q.2.getD ""])),
              tables := [],
              metadata := [("pages", MetaVal.nat pages.length)] } ∧
    lookupMeta [("pages", MetaVal.nat pages.length)] ("pages")
      = some (MetaVal.nat pages.length) := by
  constructor
  · unfold PDFParser.parse
    rw [if_neg (by simp [hv])]
    unfold PDFParser._parse_with_pdfplumber
    rw [hp]
    dsimp only
    rw [textChunks_enumFrom (pages.map (fun pg => pg.text)) 1]
    rw [pageTables_nil cfg pages hnt]
    rfl
  · rfl

/-- Witness for C8: a two-page table-free pdf in the all-succeeding world. -/
theorem pdf_multipage_no_tables_witness :
    validate_file envOk cfgD ("x.pdf") = true ∧
    envOk.pdfplumberRead ("x.pdf") = .ok pagesW ∧
    2 ≤ pagesW.length ∧
    (∀ pg ∈ pagesW, pg.tables = []) ∧
    PDFParser.parse envOk cfgD ("x.pdf")
      = .ok { file_path := "x.pdf", document_type := DocumentType.pdf,
              text := "\n--- Page 1 ---\n" ++ "\n" ++ "alpha" ++ "\n" ++
                "\n--- Page 2 ---\n" ++ "\n" ++ "beta",
              tables := [],
              metadata := [("pages", MetaVal.nat 2)] } := by
  refine ⟨by decide, by decide, by decide, by decide, ?_⟩
  have h := (pdf_multipage_no_tables envOk cfgD ("x.pdf") pagesW
    (by decide) (by decide) (by decide) (by decide)).1
  rw [h]
  rfl

/-- Claim C2: parse_multiple returns one document per input path in input
order; a succeeding path yields its parse result and a failing path yields the
sentinel document with UNKNOWN type, the error message as text and the error
metadata key. -/
theorem parse_multiple_batch_isolation (env : Env) (cfg : ParserConfig)
    (paths : List String) :
    (UniversalParser.parse_multiple env cfg paths).length = paths.length ∧
    (∀ (i : Nat) (pth : String) (d : ParsedDocument), paths[i]? = some pth →
       UniversalParser.parse env cfg pth = .ok d →
       (UniversalParser.parse_multiple env cfg paths)[i]? = some d) ∧
    (∀ (i : Nat) (pth e : String), paths[i]? = some pth →
       UniversalParser.parse env cfg pth = .error e →
       (UniversalParser.parse_multiple env cfg paths)[i]?
           = some (UniversalParser.errorDoc pth e) ∧
       (UniversalParser.errorDoc pth e).document_type = DocumentType.unknown ∧
       (UniversalParser.errorDoc pth e).text = "Error: " ++ e ∧
       lookupMeta (UniversalParser.errorDoc pth e).metadata ("error")
           = some (MetaVal.str e)) := by
  induction paths with
  | nil =>
    refine ⟨rfl, fun i pth d h => ?_, fun i pth e h => ?_⟩ <;> simp at h
  | cons q rest ih =>
    obtain ⟨ihlen, ihok, iherr⟩ := ih
    refine ⟨?_, ?_, ?_⟩
    · simpa [UniversalParser.parse_multiple] using ihlen
    · intro i pth d hget hp
      cases i with
      | zero =>
        simp at hget
        subst hget
        simp [UniversalParser.parse_multiple, hp]
      | succ j =>
        simp at hget
        simpa [UniversalParser.parse_multiple] using ihok j pth d hget hp
    · intro i pth e hget hp
      cases i with
      | zero =>
        simp at hget
        subst hget
        exact ⟨by simp [UniversalParser.parse_multiple, hp], rfl, rfl, rfl⟩
      | succ j =>
        simp at hget
        have h := iherr j pth e hget hp
        exact ⟨by simpa [UniversalParser.parse_multiple] using h.1, rfl, rfl, rfl⟩

/-- Witness for C2: a batch with one good csv and one missing path produces
two documents, the second being the sentinel for the missing path. -/
theorem parse_multiple_batch_isolation_witness :
    ((["a.csv", "missing.csv"] : List String)[1]? = some ("missing.csv")) ∧
    UniversalParser.parse envOk cfgD ("missing.csv")
      = .error ("File not found: missing.csv") ∧
    (UniversalParser.parse_multiple envOk cfgD ["a.csv", "missing.csv"]).length = 2 ∧
    (UniversalParser.parse_multiple envOk cfgD ["a.csv", "missing.csv"])[1]?
      = some (UniversalParser.errorDoc ("missing.csv") ("File not found: missing.csv")) := by
  refine ⟨by decide, by decide, ?_, ?_⟩
  · exact (parse_multiple_batch_isolation envOk cfgD ["a.csv", "missing.csv"]).1
  · exact ((parse_multiple_batch_isolation envOk cfgD ["a.csv", "missing.csv"]).2.2
      1 ("missing.csv") ("File not found: missing.csv") (by decide) (by decide)).1

/-- A non-matching parser is skipped by the dispatch loop. -/
theorem tryParsers_skip (env : Env) (cfg : ParserConfig) (fp : String)
    (k : UniversalParser.ParserKind) (rest : List UniversalParser.ParserKind)
    (h : UniversalParser.canParseK k fp = false) :
    UniversalParser.tryParsers env cfg fp (k :: rest)
      = UniversalParser.tryParsers env cfg fp rest := by
  simp [UniversalParser.tryParsers, h]

/-- A matching parser whose parse succeeds ends the dispatch loop. -/
theorem tryParsers_hit (env : Env) (cfg : ParserConfig) (fp : String)
    (k : UniversalParser.ParserKind) (rest : List UniversalParser.ParserKind)
    (d : ParsedDocument) (h : UniversalParser.canParseK k fp = true)
    (hd : UniversalParser.parseK env cfg k fp = .ok d) :
    UniversalParser.tryParsers env cfg fp (k :: rest) = .ok d := by
  simp [UniversalParser.tryParsers, h, hd]

/-- A matching parser whose parse raises falls through to the rest of the
list. -/
theorem tryParsers_fall (env : Env) (cfg : ParserConfig) (fp : String)
    (k : UniversalParser.ParserKind) (rest : List UniversalParser.ParserKind)
    (e : String) (h : UniversalParser.canParseK k fp = true)
    (he : UniversalParser.parseK env cfg k fp = .error e) :
    UniversalParser.tryParsers env cfg fp (k :: rest)
      = UniversalParser.tryParsers env cfg fp rest := by
  simp [UniversalParser.tryParsers, h, he]

/-- The PDF stage of the dispatch loop is passed when the PDF parser does not
match or its attempt raises. -/
theorem tryParsers_after_pdf (env : Env) (cfg : ParserConfig) (fp : String)
    (hfail : PDFParser.can_parse fp = false ∨
      (∃ e, PDFParser.parse env cfg fp = .error e)) :
    UniversalParser.tryParsers env cfg fp UniversalParser.registeredParsers
      = UniversalParser.tryParsers env cfg fp [UniversalParser.ParserKind.excelP] := by
  rcases hfail with hf | ⟨e, hf⟩
  · exact tryParsers_skip env cfg fp _ _ hf
  · by_cases hcp : PDFParser.can_parse fp = true
    · exact tryParsers_fall env cfg fp _ _ e hcp hf
    · exact tryParsers_skip env cfg fp _ _ (by simpa using hcp)

/-- Counterexample to claim C1 as stated: tsv is a format the dispatcher
supports (the Excel parser matches it and it appears in
get_supported_formats), yet the unsupported-format error raised for a docx
path does not name it, so the error does not name the set of formats the
dispatcher supports. -/
theorem universal_unsupported_message_omits_tsv :
    UniversalParser.parse envFail cfgD ("doc.docx")
      = .error (UniversalParser.unsupportedMsg ("doc.docx")) ∧
    ExcelParser.can_parse ("report.tsv") = true ∧
    UniversalParser.get_supported_formats.contains ("tsv") = true ∧
    strContains (UniversalParser.unsupportedMsg ("doc.docx")) ("tsv") = false ∧
    strContains (UniversalParser.unsupportedMsg ("doc.docx")) ("docx") = true :=
  ⟨by decide, by decide, by decide, by decide, by decide⟩

/-- Claim C1 (amended): on an existing path the dispatcher tries the
registered parsers in registration order (PDF, then Excel); a matching
parser's raised attempt falls through to the next matching parser; and when
every matching attempt fails or no parser matches, the call fails with the
hardcoded unsupported-format error naming the file's extension and the
PDF/Excel/CSV format list (which omits the supported tsv extension). -/
theorem universal_parse_ordered_dispatch (env : Env) (cfg : ParserConfig) (p : String)
    (hex : env.pathExists (env.resolve p) = true) :
    (∀ d, PDFParser.can_parse (env.resolve p) = true →
       PDFParser.parse env cfg (env.resolve p) = .ok d →
       UniversalParser.parse env cfg p = .ok d) ∧
    (∀ d, (PDFParser.can_parse (env.resolve p) = false ∨
         (∃ e, PDFParser.parse env cfg (env.resolve p) = .error e)) →
       ExcelParser.can_parse (env.resolve p) = true →
       ExcelParser.parse env cfg (env.resolve p) = .ok d →
       UniversalParser.parse env cfg p = .ok d) ∧
    ((PDFParser.can_parse (env.resolve p) = false ∨
         (∃ e, PDFParser.parse env cfg (env.resolve p) = .error e)) →
     (ExcelParser.can_parse (env.resolve p) = false ∨
         (∃ e, ExcelParser.parse env cfg (env.resolve p) = .error e)) →
     UniversalParser.parse env cfg p
       = .error (UniversalParser.unsupportedMsg (env.resolve p))) := by
  have hstep : UniversalParser.parse env cfg p
      = UniversalParser.tryParsers env cfg (env.resolve p)
          UniversalParser.registeredParsers := by
    simp [UniversalParser.parse, hex]
  refine ⟨?_, ?_, ?_⟩
  · intro d hc hd
    rw [hstep]
    exact tryParsers_hit env cfg (env.resolve p) _ _ d hc hd
  · intro d hfail hc hd
    rw [hstep, tryParsers_after_pdf env cfg (env.resolve p) hfail]
    exact tryParsers_hit env cfg (env.resolve p) _ _ d hc hd
  · intro hfail1 hfail2
    rw [hstep, tryParsers_after_pdf env cfg (env.resolve p) hfail1]
    have hlast : UniversalParser.tryParsers env cfg (env.resolve p) []
        = .error (UniversalParser.unsupportedMsg (env.resolve p)) := rfl
    rcases hfail2 with hf | ⟨e, hf⟩
    · rw [tryParsers_skip env cfg (env.resolve p) UniversalParser.ParserKind.excelP [] hf]
      exact hlast
    · by_cases hcp : ExcelParser.can_parse (env.resolve p) = true
      · rw [tryParsers_fall env cfg (env.resolve p) UniversalParser.ParserKind.excelP []
          e hcp hf]
        exact hlast
      · rw [tryParsers_skip env cfg (env.resolve p) UniversalParser.ParserKind.excelP []
          (by simpa using hcp)]
        exact hlast

/-- Witness for the amended C1: a pdf path whose matching PDF parser fails
both methods and which the Excel parser does not match ends in the
unsupported-format error. -/
theorem universal_parse_ordered_dispatch_witness :
    envFail.pathExists (envFail.resolve ("x.pdf")) = true ∧
    PDFParser.parse envFail cfgD (envFail.resolve ("x.pdf")) = .error ("pypdf boom") ∧
    ExcelParser.can_parse (envFail.resolve ("x.pdf")) = false ∧
    UniversalParser.parse envFail cfgD ("x.pdf")
      = .error (UniversalParser.unsupportedMsg (envFail.resolve ("x.pdf"))) := by
  refine ⟨by decide, by decide, by decide, ?_⟩
  exact (universal_parse_ordered_dispatch envFail cfgD ("x.pdf") (by decide)).2.2
    (Or.inr ⟨"pypdf boom", by decide⟩) (Or.inl (by decide))
